import Mathlib

/-!
Shallow embedding of the Creditra credit-line contract
(`src/contracts/credit/src/lib.rs`, Soroban/Rust) and verification of its
specification claims.

Each public contract function is modelled as a function from the persistent
storage (a partial map from storage keys to records) and its arguments to
`Except ContractAbort (State × List Effect)`: a successful invocation returns
the updated storage together with the trace of observable effects (storage
writes, published events, external value-transfers) in program order, and an
aborted invocation returns the abort reason.  The Soroban host rolls back all
writes of an aborted invocation, so an abort leaves storage unchanged by
construction.
-/

/-- Addresses of principals (borrowers, admin), modelled as natural numbers;
only decidable identity matters to the contract logic. -/
abbrev Address := Nat

/-- Lifecycle status of a credit line, the source enum `CreditStatus`. -/
inductive CreditStatus where
  | Active
  | Suspended
  | Defaulted
  | Closed
deriving DecidableEq

/-- Contract errors, the source enum `CreditError`. -/
inductive CreditError where
  | CreditLineNotFound
  | InvalidCreditStatus
  | InvalidAmount
  | InsufficientUtilization
  | Unauthorized
deriving DecidableEq

/-- Numeric error codes: the discriminants the source declares on
`CreditError` (`CreditLineNotFound = 1`, ..., `Unauthorized = 5`), which
`Into<soroban_sdk::Error>` exposes via `self as u32`. -/
def CreditError.code : CreditError → Nat
  | .CreditLineNotFound => 1
  | .InvalidCreditStatus => 2
  | .InvalidAmount => 3
  | .InsufficientUtilization => 4
  | .Unauthorized => 5

/-- An aborted invocation: either a structured contract error raised with
`panic_with_error!`, or a plain Rust panic (from `unwrap`/`expect`) carrying
its message.  The repository's tests distinguish the two
(`Error(Contract, #3)` versus the plain message `Credit line not found`). -/
inductive ContractAbort where
  | err (e : CreditError)
  | panicMsg (msg : String)
deriving DecidableEq

/-- The stored borrower record, the source struct `CreditLineData`.  The two
`i128` fields are unbounded integers here; every arithmetic step the source
performs on them goes through `checked_add`/`checked_sub` below, which
enforce the `i128` range exactly as Rust's checked operations do. -/
structure CreditLineData where
  borrower : Address
  credit_limit : Int
  utilized_amount : Int
  interest_rate_bps : Nat
  risk_score : Nat
  status : CreditStatus
deriving DecidableEq

/-- Smallest `i128` value. -/
def I128_MIN : Int := -(2 ^ 127)

/-- Largest `i128` value. -/
def I128_MAX : Int := 2 ^ 127 - 1

/-- Rust `i128::checked_add`: `none` exactly when the sum leaves `i128`. -/
def checked_add (a b : Int) : Option Int :=
  if I128_MIN ≤ a + b ∧ a + b ≤ I128_MAX then some (a + b) else none

/-- Rust `i128::checked_sub`: `none` exactly when the difference leaves
`i128`. -/
def checked_sub (a b : Int) : Option Int :=
  if I128_MIN ≤ a - b ∧ a - b ≤ I128_MAX then some (a - b) else none

/-- Persistent-storage keys the contract uses.  `open_credit_line`,
`suspend_credit_line`, `close_credit_line`, `default_credit_line` and
`get_credit_line` key the record by the bare borrower address (`addr`), while
`draw_credit` and `repay_credit` use the composite key
`(Symbol("CREDIT_LINE"), borrower)` (`credit`); these are distinct storage
keys in the host's key-value store. -/
inductive StorageKey where
  | addr (b : Address)
  | credit (b : Address)
deriving DecidableEq

/-- Persistent storage: a partial map from storage keys to records. -/
abbrev State := StorageKey → Option CreditLineData

/-- Storage of a freshly deployed contract: no records. -/
def emptyState : State := fun _ => none

/-- Point update of storage, the effect of
`env.storage().persistent().set(key, data)`. -/
def setKey (s : State) (k : StorageKey) (d : CreditLineData) : State :=
  fun k' => if k' = k then some d else s k'

/-- Payload of the lifecycle events, the source struct `CreditLineEvent`. -/
structure CreditLineEvent where
  event_type : String
  borrower : Address
  status : CreditStatus
  credit_limit : Int
  interest_rate_bps : Nat
  risk_score : Nat
deriving DecidableEq

/-- Events the contract publishes, with their topics and payloads. -/
inductive EmittedEvent where
  | lifecycle (topic1 topic2 : String) (e : CreditLineEvent)
  | draw (b : Address) (amount newUtilized : Int)
  | repayment (b : Address) (applied newUtilized : Int)
deriving DecidableEq

/-- Observable effects of one invocation, in program order.  The `transfer`
constructor is the vocabulary for an external value-transfer from the reserve
to a borrower; it lets ordering claims about transfers be stated.  The
operations as implemented in the source never emit it. -/
inductive Effect where
  | write (k : StorageKey) (d : CreditLineData)
  | publish (e : EmittedEvent)
  | transfer (dst : Address) (amount : Int)
deriving DecidableEq

/-- Whether an effect is an external value-transfer. -/
def Effect.isTransfer : Effect → Bool
  | .transfer _ _ => true
  | _ => false

/-- Source `open_credit_line`: unconditionally writes a fresh record with
`utilized_amount = 0` and status `Active` under the bare borrower key, then
publishes the `("credit","opened")` event.  It performs no validation. -/
def open_credit_line (s : State) (borrower : Address) (credit_limit : Int)
    (interest_rate_bps : Nat) (risk_score : Nat) :
    Except ContractAbort (State × List Effect) :=
  let credit_line : CreditLineData :=
    { borrower := borrower, credit_limit := credit_limit, utilized_amount := 0,
      interest_rate_bps := interest_rate_bps, risk_score := risk_score,
      status := CreditStatus.Active }
  .ok (setKey s (.addr borrower) credit_line,
    [Effect.write (.addr borrower) credit_line,
     Effect.publish (.lifecycle "credit" "opened"
       { event_type := "opened", borrower := borrower,
         status := CreditStatus.Active, credit_limit := credit_limit,
         interest_rate_bps := interest_rate_bps, risk_score := risk_score })])

/-- Source `draw_credit`: rejects non-positive amounts, loads the record from
the composite `CREDIT_LINE` key (contract error `CreditLineNotFound` when
absent), requires `Active` status, computes the headroom with `checked_sub`
(plain panic on overflow), rejects draws above the headroom with
`InsufficientUtilization`, increments utilization with `checked_add` (plain
panic on overflow), persists the updated record and then publishes the
`("draw", borrower)` event with `(amount, new_utilized)`. -/
def draw_credit (s : State) (borrower : Address) (amount : Int) :
    Except ContractAbort (State × List Effect) :=
  if amount ≤ 0 then .error (.err .InvalidAmount)
  else
    match s (.credit borrower) with
    | none => .error (.err .CreditLineNotFound)
    | some credit_data =>
      if credit_data.status ≠ CreditStatus.Active then
        .error (.err .InvalidCreditStatus)
      else
        match checked_sub credit_data.credit_limit credit_data.utilized_amount with
        | none => .error (.panicMsg "Credit limit should be >= utilized amount")
        | some available_credit =>
          if amount > available_credit then
            .error (.err .InsufficientUtilization)
          else
            match checked_add credit_data.utilized_amount amount with
            | none =>
              .error (.panicMsg "Utilized amount should not overflow credit limit")
            | some u =>
              let credit_data' := { credit_data with utilized_amount := u }
              .ok (setKey s (.credit borrower) credit_data',
                [Effect.write (.credit borrower) credit_data',
                 Effect.publish (.draw borrower amount u)])

/-- Source `repay_credit`: rejects non-positive amounts, loads the record
from the composite `CREDIT_LINE` key (`CreditLineNotFound` when absent),
requires status `Active` or `Suspended`, caps the applied amount at the
current utilization, decrements utilization with `checked_sub` (plain panic
on overflow), persists and publishes the `("repayment", borrower)` event
with `(amount_to_apply, new_utilized)`. -/
def repay_credit (s : State) (borrower : Address) (amount : Int) :
    Except ContractAbort (State × List Effect) :=
  if amount ≤ 0 then .error (.err .InvalidAmount)
  else
    match s (.credit borrower) with
    | none => .error (.err .CreditLineNotFound)
    | some credit_data =>
      if credit_data.status ≠ CreditStatus.Active ∧
          credit_data.status ≠ CreditStatus.Suspended then
        .error (.err .InvalidCreditStatus)
      else
        let amount_to_apply :=
          if amount > credit_data.utilized_amount then credit_data.utilized_amount
          else amount
        match checked_sub credit_data.utilized_amount amount_to_apply with
        | none =>
          .error (.panicMsg "Underflow should not occur with proper validation")
        | some u =>
          let credit_data' := { credit_data with utilized_amount := u }
          .ok (setKey s (.credit borrower) credit_data',
            [Effect.write (.credit borrower) credit_data',
             Effect.publish (.repayment borrower amount_to_apply u)])

/-- Source `update_risk_parameters`: its body is the comment `TODO: update
stored CreditLineData` followed by `()`; it reads nothing, writes nothing,
publishes nothing and always succeeds. -/
def update_risk_parameters (s : State) (_borrower : Address)
    (_credit_limit : Int) (_interest_rate_bps : Nat) (_risk_score : Nat) :
    Except ContractAbort (State × List Effect) :=
  .ok (s, [])

/-- Source `suspend_credit_line`: loads the record from the bare borrower key
with `.expect("Credit line not found")` (a plain panic, not a contract
error), sets status `Suspended`, persists under the bare key and publishes
the `("credit","suspend")` snapshot event. -/
def suspend_credit_line (s : State) (borrower : Address) :
    Except ContractAbort (State × List Effect) :=
  match s (.addr borrower) with
  | none => .error (.panicMsg "Credit line not found")
  | some credit_line =>
    let credit_line' := { credit_line with status := CreditStatus.Suspended }
    .ok (setKey s (.addr borrower) credit_line',
      [Effect.write (.addr borrower) credit_line',
       Effect.publish (.lifecycle "credit" "suspend"
         { event_type := "suspend", borrower := borrower,
           status := CreditStatus.Suspended,
           credit_limit := credit_line.credit_limit,
           interest_rate_bps := credit_line.interest_rate_bps,
           risk_score := credit_line.risk_score })])

/-- Source `close_credit_line`: same shape as `suspend_credit_line` with
status `Closed` and the `("credit","closed")` event. -/
def close_credit_line (s : State) (borrower : Address) :
    Except ContractAbort (State × List Effect) :=
  match s (.addr borrower) with
  | none => .error (.panicMsg "Credit line not found")
  | some credit_line =>
    let credit_line' := { credit_line with status := CreditStatus.Closed }
    .ok (setKey s (.addr borrower) credit_line',
      [Effect.write (.addr borrower) credit_line',
       Effect.publish (.lifecycle "credit" "closed"
         { event_type := "closed", borrower := borrower,
           status := CreditStatus.Closed,
           credit_limit := credit_line.credit_limit,
           interest_rate_bps := credit_line.interest_rate_bps,
           risk_score := credit_line.risk_score })])

/-- Source `default_credit_line`: same shape as `suspend_credit_line` with
status `Defaulted` and the `("credit","default")` event. -/
def default_credit_line (s : State) (borrower : Address) :
    Except ContractAbort (State × List Effect) :=
  match s (.addr borrower) with
  | none => .error (.panicMsg "Credit line not found")
  | some credit_line =>
    let credit_line' := { credit_line with status := CreditStatus.Defaulted }
    .ok (setKey s (.addr borrower) credit_line',
      [Effect.write (.addr borrower) credit_line',
       Effect.publish (.lifecycle "credit" "default"
         { event_type := "default", borrower := borrower,
           status := CreditStatus.Defaulted,
           credit_limit := credit_line.credit_limit,
           interest_rate_bps := credit_line.interest_rate_bps,
           risk_score := credit_line.risk_score })])

/-- Source `get_credit_line`: reads the bare borrower key, returning the
record or `none`; a pure query with no writes and no events. -/
def get_credit_line (s : State) (borrower : Address) : Option CreditLineData :=
  s (.addr borrower)

/-- One invocation of a public mutating operation, with its arguments. -/
inductive Op where
  | openLine (b : Address) (credit_limit : Int) (rate risk : Nat)
  | draw (b : Address) (amount : Int)
  | repay (b : Address) (amount : Int)
  | suspend (b : Address)
  | close (b : Address)
  | defaultLine (b : Address)
  | update (b : Address) (credit_limit : Int) (rate risk : Nat)

/-- Dispatch one operation to the corresponding contract function. -/
def runOp (s : State) : Op → Except ContractAbort (State × List Effect)
  | .openLine b l rate risk => open_credit_line s b l rate risk
  | .draw b a => draw_credit s b a
  | .repay b a => repay_credit s b a
  | .suspend b => suspend_credit_line s b
  | .close b => close_credit_line s b
  | .defaultLine b => default_credit_line s b
  | .update b l rate risk => update_risk_parameters s b l rate risk

/-- Committed effect of one invocation on storage: an abort rolls every
write back (the host's transaction semantics), a success installs the new
storage. -/
def applyOp (s : State) (op : Op) : State :=
  match runOp s op with
  | .ok (s', _) => s'
  | .error _ => s

/-- The core bookkeeping invariant of the data model: every stored record
has `0 ≤ utilized_amount ≤ credit_limit`. -/
def CreditInv (s : State) : Prop :=
  ∀ k r, s k = some r → 0 ≤ r.utilized_amount ∧ r.utilized_amount ≤ r.credit_limit

/-- Argument discipline under which the invariant is preserved: every
`open_credit_line` call passes a non-negative credit limit.  The contract
itself never checks this. -/
def opOK : Op → Prop
  | .openLine _ l _ _ => 0 ≤ l
  | _ => True

/-! Helper lemmas about storage and the checked arithmetic. -/

theorem setKey_same (s : State) (k : StorageKey) (d : CreditLineData) :
    setKey s k d k = some d := by simp [setKey]

theorem setKey_other (s : State) (k k' : StorageKey) (d : CreditLineData)
    (h : k' ≠ k) : setKey s k d k' = s k' := by simp [setKey, h]

theorem I128_MIN_neg : I128_MIN < 0 := by norm_num [I128_MIN]

theorem I128_MAX_pos : 0 < I128_MAX := by norm_num [I128_MAX]

theorem checked_sub_eq (a b : Int) (h1 : I128_MIN ≤ a - b) (h2 : a - b ≤ I128_MAX) :
    checked_sub a b = some (a - b) := by simp [checked_sub, h1, h2]

theorem checked_add_eq (a b : Int) (h1 : I128_MIN ≤ a + b) (h2 : a + b ≤ I128_MAX) :
    checked_add a b = some (a + b) := by simp [checked_add, h1, h2]

/-! Evaluation and inversion lemmas for the contract operations. -/

/-- Running `draw_credit` on a borrower with no record under the composite key fails
with the `CreditLineNotFound` contract error (for positive amounts). -/
theorem draw_credit_notfound (s : State) (b : Address) (a : Int)
    (hcd : s (StorageKey.credit b) = none) (ha : 0 < a) :
    draw_credit s b a = .error (.err .CreditLineNotFound) := by
  simp [draw_credit, hcd, show ¬ a ≤ 0 by omega]

/-- Running `repay_credit` on a borrower with no record under the composite key fails
with the `CreditLineNotFound` contract error (for positive amounts). -/
theorem repay_credit_notfound (s : State) (b : Address) (a : Int)
    (hcd : s (StorageKey.credit b) = none) (ha : 0 < a) :
    repay_credit s b a = .error (.err .CreditLineNotFound) := by
  simp [repay_credit, hcd, show ¬ a ≤ 0 by omega]

/-- Forward evaluation of a successful `draw_credit`. -/
theorem draw_credit_eval_ok (s : State) (b : Address) (a : Int)
    (cd : CreditLineData) (v u : Int)
    (hcd : s (StorageKey.credit b) = some cd)
    (ha : ¬ a ≤ 0) (hst : cd.status = CreditStatus.Active)
    (hsub : checked_sub cd.credit_limit cd.utilized_amount = some v)
    (hgt : ¬ a > v)
    (hadd : checked_add cd.utilized_amount a = some u) :
    draw_credit s b a =
      .ok (setKey s (StorageKey.credit b) { cd with utilized_amount := u },
        [Effect.write (StorageKey.credit b) { cd with utilized_amount := u },
         Effect.publish (EmittedEvent.draw b a u)]) := by
  simp only [draw_credit, hcd, if_neg ha, hsub, hadd]
  rw [if_neg (by simp [hst]), if_neg hgt]

/-- Forward evaluation of a `draw_credit` that exceeds the headroom. -/
theorem draw_credit_eval_exceeded (s : State) (b : Address) (a : Int)
    (cd : CreditLineData) (v : Int)
    (hcd : s (StorageKey.credit b) = some cd)
    (ha : ¬ a ≤ 0) (hst : cd.status = CreditStatus.Active)
    (hsub : checked_sub cd.credit_limit cd.utilized_amount = some v)
    (hgt : a > v) :
    draw_credit s b a = .error (.err .InsufficientUtilization) := by
  simp only [draw_credit, hcd, if_neg ha, hsub]
  rw [if_neg (by simp [hst]), if_pos hgt]

/-- Inversion of a successful `draw_credit`: the record existed under the
composite key, was `Active`, the amount was positive and within the headroom,
the sum stayed inside `i128`, and the result is exactly the point update of
the composite key together with the write-then-publish trace. -/
theorem draw_credit_ok (s : State) (b : Address) (a : Int) (s' : State)
    (tr : List Effect) (h : draw_credit s b a = .ok (s', tr)) :
    ∃ cd, s (StorageKey.credit b) = some cd ∧ cd.status = CreditStatus.Active ∧
      0 < a ∧ a ≤ cd.credit_limit - cd.utilized_amount ∧
      I128_MIN ≤ cd.utilized_amount + a ∧ cd.utilized_amount + a ≤ I128_MAX ∧
      s' = setKey s (StorageKey.credit b)
        { cd with utilized_amount := cd.utilized_amount + a } ∧
      tr = [Effect.write (StorageKey.credit b)
              { cd with utilized_amount := cd.utilized_amount + a },
            Effect.publish (EmittedEvent.draw b a (cd.utilized_amount + a))] := by
  unfold draw_credit at h
  split at h
  · cases h
  rename_i ha
  split at h
  · cases h
  rename_i cd hcd
  split at h
  · cases h
  rename_i hst
  split at h
  · cases h
  rename_i v hsub
  split at h
  · cases h
  rename_i hgt
  split at h
  · cases h
  rename_i u hadd
  simp only [Except.ok.injEq, Prod.mk.injEq] at h
  obtain ⟨hs', htr⟩ := h
  unfold checked_sub at hsub
  unfold checked_add at hadd
  split at hsub
  case isTrue hrange =>
    injection hsub with hv
    split at hadd
    case isTrue hrange2 =>
      injection hadd with hu
      subst hu
      exact ⟨cd, hcd, by simpa using hst, by omega, by omega, hrange2.1, hrange2.2,
        hs'.symm, htr.symm⟩
    case isFalse hno => simp at hadd
  case isFalse hno => simp at hsub

/-- Forward evaluation of a successful `repay_credit`, with the applied
amount spelled out as the source computes it. -/
theorem repay_credit_eval_ok (s : State) (b : Address) (a : Int)
    (cd : CreditLineData) (ap u : Int)
    (hcd : s (StorageKey.credit b) = some cd)
    (ha : ¬ a ≤ 0)
    (hst : cd.status = CreditStatus.Active ∨ cd.status = CreditStatus.Suspended)
    (hap : ap = if a > cd.utilized_amount then cd.utilized_amount else a)
    (hsub : checked_sub cd.utilized_amount ap = some u) :
    repay_credit s b a =
      .ok (setKey s (StorageKey.credit b) { cd with utilized_amount := u },
        [Effect.write (StorageKey.credit b) { cd with utilized_amount := u },
         Effect.publish (EmittedEvent.repayment b ap u)]) := by
  subst hap
  simp only [repay_credit, hcd, if_neg ha, hsub]
  rw [if_neg (by rcases hst with h | h <;> simp [h])]

/-- Inversion of a successful `repay_credit`. -/
theorem repay_credit_ok (s : State) (b : Address) (a : Int) (s' : State)
    (tr : List Effect) (h : repay_credit s b a = .ok (s', tr)) :
    ∃ cd, s (StorageKey.credit b) = some cd ∧
      (cd.status = CreditStatus.Active ∨ cd.status = CreditStatus.Suspended) ∧
      0 < a ∧
      s' = setKey s (StorageKey.credit b)
        { cd with utilized_amount :=
            cd.utilized_amount -
              (if a > cd.utilized_amount then cd.utilized_amount else a) } ∧
      tr = [Effect.write (StorageKey.credit b)
              { cd with utilized_amount :=
                  cd.utilized_amount -
                    (if a > cd.utilized_amount then cd.utilized_amount else a) },
            Effect.publish (EmittedEvent.repayment b
              (if a > cd.utilized_amount then cd.utilized_amount else a)
              (cd.utilized_amount -
                (if a > cd.utilized_amount then cd.utilized_amount else a)))] := by
  unfold repay_credit at h
  split at h
  · cases h
  rename_i ha
  split at h
  · cases h
  rename_i cd hcd
  split at h
  · cases h
  rename_i hst
  have hstd : cd.status = CreditStatus.Active ∨ cd.status = CreditStatus.Suspended := by
    tauto
  split at h
  case isTrue hgt =>
    dsimp only at h
    split at h
    · cases h
    rename_i u hsub
    simp only [Except.ok.injEq, Prod.mk.injEq] at h
    obtain ⟨hs', htr⟩ := h
    unfold checked_sub at hsub
    split at hsub
    case isTrue hrange =>
      injection hsub with hu
      subst hu
      refine ⟨cd, hcd, hstd, by omega, ?_, ?_⟩
      · rw [if_pos hgt]
        exact hs'.symm
      · rw [if_pos hgt]
        exact htr.symm
    case isFalse hno => simp at hsub
  case isFalse hgt =>
    dsimp only at h
    split at h
    · cases h
    rename_i u hsub
    simp only [Except.ok.injEq, Prod.mk.injEq] at h
    obtain ⟨hs', htr⟩ := h
    unfold checked_sub at hsub
    split at hsub
    case isTrue hrange =>
      injection hsub with hu
      subst hu
      refine ⟨cd, hcd, hstd, by omega, ?_, ?_⟩
      · rw [if_neg hgt]
        exact hs'.symm
      · rw [if_neg hgt]
        exact htr.symm
    case isFalse hno => simp at hsub

/-- Inversion of a successful `suspend_credit_line`: the record existed under
the bare borrower key and only its status changed, to `Suspended`. -/
theorem suspend_credit_line_ok (s : State) (b : Address) (s' : State)
    (tr : List Effect) (h : suspend_credit_line s b = .ok (s', tr)) :
    ∃ cd, s (StorageKey.addr b) = some cd ∧
      s' = setKey s (StorageKey.addr b) { cd with status := CreditStatus.Suspended } := by
  unfold suspend_credit_line at h
  split at h
  · cases h
  rename_i cd hcd
  simp only [Except.ok.injEq, Prod.mk.injEq] at h
  exact ⟨cd, hcd, h.1.symm⟩

/-- Inversion of a successful `close_credit_line`. -/
theorem close_credit_line_ok (s : State) (b : Address) (s' : State)
    (tr : List Effect) (h : close_credit_line s b = .ok (s', tr)) :
    ∃ cd, s (StorageKey.addr b) = some cd ∧
      s' = setKey s (StorageKey.addr b) { cd with status := CreditStatus.Closed } := by
  unfold close_credit_line at h
  split at h
  · cases h
  rename_i cd hcd
  simp only [Except.ok.injEq, Prod.mk.injEq] at h
  exact ⟨cd, hcd, h.1.symm⟩

/-- Inversion of a successful `default_credit_line`. -/
theorem default_credit_line_ok (s : State) (b : Address) (s' : State)
    (tr : List Effect) (h : default_credit_line s b = .ok (s', tr)) :
    ∃ cd, s (StorageKey.addr b) = some cd ∧
      s' = setKey s (StorageKey.addr b) { cd with status := CreditStatus.Defaulted } := by
  unfold default_credit_line at h
  split at h
  · cases h
  rename_i cd hcd
  simp only [Except.ok.injEq, Prod.mk.injEq] at h
  exact ⟨cd, hcd, h.1.symm⟩

/-- Inversion of `open_credit_line` (which always succeeds): the new storage
is the point update of the bare borrower key with the fresh record. -/
theorem open_credit_line_ok (s : State) (b : Address) (l : Int)
    (rate risk : Nat) (s' : State) (tr : List Effect)
    (h : open_credit_line s b l rate risk = .ok (s', tr)) :
    s' = setKey s (StorageKey.addr b)
      { borrower := b, credit_limit := l, utilized_amount := 0,
        interest_rate_bps := rate, risk_score := risk,
        status := CreditStatus.Active } := by
  unfold open_credit_line at h
  simp only [Except.ok.injEq, Prod.mk.injEq] at h
  exact h.1.symm

/-! Preservation of the bookkeeping invariant by committed operations. -/

/-- Updating one key preserves the invariant when the new record satisfies
the bounds. -/
theorem CreditInv_setKey (s : State) (k : StorageKey) (d : CreditLineData)
    (hInv : CreditInv s) (h0 : 0 ≤ d.utilized_amount)
    (h1 : d.utilized_amount ≤ d.credit_limit) : CreditInv (setKey s k d) := by
  intro k' r hk
  unfold setKey at hk
  split at hk
  · cases hk
    exact ⟨h0, h1⟩
  · exact hInv k' r hk

/-- One committed operation preserves the invariant, provided any
`open_credit_line` among them passes a non-negative credit limit. -/
theorem applyOp_preserves (s : State) (op : Op) (hInv : CreditInv s)
    (hop : opOK op) : CreditInv (applyOp s op) := by
  unfold applyOp
  cases hres : runOp s op with
  | error e => exact hInv
  | ok p =>
    obtain ⟨s', tr⟩ := p
    cases op with
    | openLine b l rate risk =>
      simp only [runOp] at hres
      rw [open_credit_line_ok s b l rate risk s' tr hres]
      exact CreditInv_setKey s _ _ hInv le_rfl hop
    | draw b a =>
      simp only [runOp] at hres
      obtain ⟨cd, hcd, -, ha, hle, -, -, hs', -⟩ := draw_credit_ok s b a s' tr hres
      obtain ⟨h0, h1⟩ := hInv _ _ hcd
      rw [hs']
      exact CreditInv_setKey s _ _ hInv (by dsimp only; omega) (by dsimp only; omega)
    | repay b a =>
      simp only [runOp] at hres
      obtain ⟨cd, hcd, -, ha, hs', -⟩ := repay_credit_ok s b a s' tr hres
      obtain ⟨h0, h1⟩ := hInv _ _ hcd
      rw [hs']
      refine CreditInv_setKey s _ _ hInv ?_ ?_ <;> dsimp only <;> split <;> omega
    | suspend b =>
      simp only [runOp] at hres
      obtain ⟨cd, hcd, hs'⟩ := suspend_credit_line_ok s b s' tr hres
      obtain ⟨h0, h1⟩ := hInv _ _ hcd
      rw [hs']
      exact CreditInv_setKey s _ _ hInv h0 h1
    | close b =>
      simp only [runOp] at hres
      obtain ⟨cd, hcd, hs'⟩ := close_credit_line_ok s b s' tr hres
      obtain ⟨h0, h1⟩ := hInv _ _ hcd
      rw [hs']
      exact CreditInv_setKey s _ _ hInv h0 h1
    | defaultLine b =>
      simp only [runOp] at hres
      obtain ⟨cd, hcd, hs'⟩ := default_credit_line_ok s b s' tr hres
      obtain ⟨h0, h1⟩ := hInv _ _ hcd
      rw [hs']
      exact CreditInv_setKey s _ _ hInv h0 h1
    | update b l rate risk =>
      simp only [runOp, update_risk_parameters, Except.ok.injEq, Prod.mk.injEq] at hres
      rw [← hres.1]
      exact hInv

/-- Folding committed operations from an invariant-satisfying storage keeps
the invariant, provided every `open_credit_line` passes a non-negative
limit. -/
theorem foldl_applyOp_inv (ops : List Op) : ∀ s : State, CreditInv s →
    (∀ op ∈ ops, opOK op) → CreditInv (ops.foldl applyOp s) := by
  induction ops with
  | nil => intro s h _; simpa using h
  | cons op rest ih =>
    intro s h hops
    simp only [List.foldl_cons]
    exact ih _ (applyOp_preserves s op h (hops op (by simp)))
      (fun o ho => hops o (by simp [ho]))

/-- The empty storage satisfies the invariant. -/
theorem CreditInv_empty : CreditInv emptyState := by
  intro k r hk
  simp [emptyState] at hk

/-! Concrete fixtures used to instantiate the claims. -/

/-- An open, unused credit line of limit 1000, as the repository's tests set
up. -/
def cdActive : CreditLineData :=
  { borrower := 0, credit_limit := 1000, utilized_amount := 0,
    interest_rate_bps := 300, risk_score := 70, status := CreditStatus.Active }

/-- Storage holding `cdActive` under the composite key, where `draw_credit`
and `repay_credit` look for it. -/
def sDraw : State := setKey emptyState (StorageKey.credit 0) cdActive

/-- A suspended line with 500 drawn. -/
def cdSuspended : CreditLineData :=
  { cdActive with status := CreditStatus.Suspended, utilized_amount := 500 }

/-- Storage holding `cdSuspended` under the composite key. -/
def sSusp : State := setKey emptyState (StorageKey.credit 0) cdSuspended

/-- An active line with 300 drawn. -/
def cdU300 : CreditLineData := { cdActive with utilized_amount := 300 }

/-- Storage holding `cdU300` under the composite key. -/
def sRepay : State := setKey emptyState (StorageKey.credit 0) cdU300

/-! The claims. -/

set_option maxRecDepth 4000 in
/-- C1 counterexample: the claim asserts that every successful draw performs
an external value-transfer after the storage write.  It is false at the
concrete input below: the draw succeeds but its effect trace contains no
transfer at any position, because `draw_credit` never invokes a value
transfer. -/
theorem C1_counterexample :
    ¬ (∀ (s : State) (b : Address) (a : Int) (s' : State) (tr : List Effect),
        draw_credit s b a = .ok (s', tr) →
        ∃ i j : Nat, i < j ∧
          (∃ d, tr[i]? = some (Effect.write (StorageKey.credit b) d)) ∧
          ∃ dst amt, tr[j]? = some (Effect.transfer dst amt)) := by
  intro hclaim
  obtain ⟨i, j, hij, -, dst, amt, hj⟩ :=
    hclaim sDraw 0 100
      (setKey sDraw (StorageKey.credit 0) { cdActive with utilized_amount := 100 })
      [Effect.write (StorageKey.credit 0) { cdActive with utilized_amount := 100 },
       Effect.publish (EmittedEvent.draw 0 100 100)] (by rfl)
  match j, hj with
  | 0, hj => simp at hj
  | 1, hj => simp at hj
  | n + 2, hj => simp at hj

/-- C1 (amended): for every successful `draw_credit` the storage write of the
updated record under the composite draw key is the first effect of the
invocation, preceding every other effect, and the trace contains no external
value-transfer: `draw_credit` as implemented performs no value transfer at
all, so nothing can run between the persist and an (absent) transfer. -/
theorem C1_draw_persist_ordering (s : State) (b : Address) (a : Int)
    (s' : State) (tr : List Effect) (h : draw_credit s b a = .ok (s', tr)) :
    ∃ cd', s' (StorageKey.credit b) = some cd' ∧
      tr.head? = some (Effect.write (StorageKey.credit b) cd') ∧
      ∀ e ∈ tr, e.isTransfer = false := by
  obtain ⟨cd, hcd, -, -, -, -, -, hs', htr⟩ := draw_credit_ok s b a s' tr h
  refine ⟨{ cd with utilized_amount := cd.utilized_amount + a }, ?_, ?_, ?_⟩
  · rw [hs']
    exact setKey_same _ _ _
  · rw [htr]
    rfl
  · intro e he
    rw [htr] at he
    simp only [List.mem_cons, List.not_mem_nil, or_false] at he
    rcases he with rfl | rfl
    · rfl
    · rfl

set_option maxRecDepth 4000 in
/-- C1 witness: the amended ordering property at a concrete successful
draw. -/
theorem C1_draw_persist_ordering_witness :
    ∃ cd', (setKey sDraw (StorageKey.credit 0)
        { cdActive with utilized_amount := 100 }) (StorageKey.credit 0) = some cd' ∧
      ([Effect.write (StorageKey.credit 0) { cdActive with utilized_amount := 100 },
        Effect.publish (EmittedEvent.draw 0 100 100)] : List Effect).head? =
        some (Effect.write (StorageKey.credit 0) cd') ∧
      ∀ e ∈ ([Effect.write (StorageKey.credit 0)
                { cdActive with utilized_amount := 100 },
              Effect.publish (EmittedEvent.draw 0 100 100)] : List Effect),
        e.isTransfer = false :=
  C1_draw_persist_ordering sDraw 0 100 _ _ (by rfl)

/-- C2 counterexample: `open_credit_line` accepts any `i128` limit; after
`open_credit_line(0, -1, 0, 0)` from the empty storage the committed record
has `utilized_amount = 0` but `credit_limit = -1`, violating
`0 ≤ utilized_amount ≤ credit_limit` on a reachable record. -/
theorem C2_counterexample :
    ∃ r, ([Op.openLine 0 (-1) 0 0].foldl applyOp emptyState)
        (StorageKey.addr 0) = some r ∧
      ¬ (0 ≤ r.utilized_amount ∧ r.utilized_amount ≤ r.credit_limit) := by
  refine ⟨{ borrower := 0, credit_limit := -1, utilized_amount := 0,
            interest_rate_bps := 0, risk_score := 0,
            status := CreditStatus.Active }, ?_, ?_⟩
  · decide
  · decide

/-- C2 (amended): every storage reachable from the empty storage by committed
public operations satisfies `0 ≤ utilized_amount ≤ credit_limit` for every
stored record, provided every `open_credit_line` call passes a non-negative
credit limit; the contract itself never validates the limit, which is exactly
what the counterexample exploits. -/
theorem C2_invariant_reachable (ops : List Op)
    (hops : ∀ op ∈ ops, opOK op) :
    CreditInv (ops.foldl applyOp emptyState) :=
  foldl_applyOp_inv ops emptyState CreditInv_empty hops

/-- C2 witness: the amended invariant along a concrete open-then-suspend
history. -/
theorem C2_invariant_reachable_witness :
    (∀ op ∈ [Op.openLine 0 1000 300 70, Op.suspend 0], opOK op) ∧
    CreditInv ([Op.openLine 0 1000 300 70, Op.suspend 0].foldl applyOp
      emptyState) := by
  have hops : ∀ op ∈ [Op.openLine 0 1000 300 70, Op.suspend 0], opOK op := by
    intro op hmem
    fin_cases hmem <;> simp [opOK]
  exact ⟨hops, C2_invariant_reachable _ hops⟩

set_option maxRecDepth 4000 in
/-- C3: after `open_credit_line(0, 1000, 300, 70)` the claimed draws of 200
and 300 do not succeed: the first already fails with `CreditLineNotFound`,
because `open_credit_line` stores the record under the bare borrower key
while `draw_credit` reads the composite `("CREDIT_LINE", borrower)` key.
After the full claimed sequence the opened record still shows
`utilized_amount = 0` (not 500) and no record exists under the composite
key.  The repository's own `test_draw_credit` expects these draws to
succeed, so this is a defect of the code, not of the claim. -/
theorem C3_sequential_draws_fail :
    draw_credit ([Op.openLine 0 1000 300 70].foldl applyOp emptyState) 0 200 =
      .error (.err .CreditLineNotFound) ∧
    ([Op.openLine 0 1000 300 70, Op.draw 0 200, Op.draw 0 300].foldl applyOp
        emptyState) (StorageKey.addr 0) =
      some { borrower := 0, credit_limit := 1000, utilized_amount := 0,
             interest_rate_bps := 300, risk_score := 70,
             status := CreditStatus.Active } ∧
    ([Op.openLine 0 1000 300 70, Op.draw 0 200, Op.draw 0 300].foldl applyOp
        emptyState) (StorageKey.credit 0) = none :=
  ⟨by rfl, by decide, by decide⟩

/-- C4: `update_risk_parameters` is an unimplemented stub (its body is a TODO
comment): on a borrower with an existing record it changes nothing (the
stored limit stays 1000 instead of becoming 2000), and on a borrower with no
record it succeeds instead of failing with `NotFound`. -/
theorem C4_update_noop :
    update_risk_parameters ([Op.openLine 0 1000 300 70].foldl applyOp
        emptyState) 0 2000 400 80 =
      .ok ([Op.openLine 0 1000 300 70].foldl applyOp emptyState, []) ∧
    ([Op.openLine 0 1000 300 70].foldl applyOp emptyState)
        (StorageKey.addr 0) =
      some { borrower := 0, credit_limit := 1000, utilized_amount := 0,
             interest_rate_bps := 300, risk_score := 70,
             status := CreditStatus.Active } ∧
    update_risk_parameters emptyState 1 2000 400 80 = .ok (emptyState, []) :=
  ⟨rfl, by decide, rfl⟩

/-- C5 counterexample: the claim requires `update_risk_parameters` on an
absent borrower to fail with the `NotFound` contract error; instead it
succeeds (it is a stub that checks nothing). -/
theorem C5_counterexample :
    update_risk_parameters emptyState 0 1000 300 70 ≠
      Except.error (ContractAbort.err CreditError.CreditLineNotFound) ∧
    update_risk_parameters emptyState 0 1000 300 70 =
      Except.ok (emptyState, []) :=
  ⟨by simp [update_risk_parameters], rfl⟩

/-- C5 (amended): on a borrower with no record, `draw_credit` and
`repay_credit` fail with the `CreditLineNotFound` contract error (numeric
code 1); `suspend_credit_line`, `close_credit_line` and
`default_credit_line` abort with the plain panic message
`Credit line not found` rather than the contract error; and
`update_risk_parameters` performs no existence check at all and succeeds as
a no-op.  In every case no write is committed. -/
theorem C5_notfound_behavior :
    (∀ (s : State) (b : Address) (a : Int), s (StorageKey.credit b) = none →
      0 < a →
      draw_credit s b a = .error (.err .CreditLineNotFound) ∧
      repay_credit s b a = .error (.err .CreditLineNotFound)) ∧
    (∀ (s : State) (b : Address), s (StorageKey.addr b) = none →
      suspend_credit_line s b = .error (.panicMsg "Credit line not found") ∧
      close_credit_line s b = .error (.panicMsg "Credit line not found") ∧
      default_credit_line s b = .error (.panicMsg "Credit line not found")) ∧
    (∀ (s : State) (b : Address) (l : Int) (rate risk : Nat),
      update_risk_parameters s b l rate risk = .ok (s, [])) ∧
    CreditError.code .CreditLineNotFound = 1 := by
  refine ⟨?_, ?_, fun s b l rate risk => rfl, rfl⟩
  · intro s b a hnone ha
    exact ⟨draw_credit_notfound s b a hnone ha,
      repay_credit_notfound s b a hnone ha⟩
  · intro s b hnone
    refine ⟨?_, ?_, ?_⟩ <;>
      simp [suspend_credit_line, close_credit_line, default_credit_line, hnone]

/-- C5 witness: the amended behaviours at the empty storage. -/
theorem C5_notfound_behavior_witness :
    draw_credit emptyState 0 5 = .error (.err .CreditLineNotFound) ∧
    suspend_credit_line emptyState 0 =
      .error (.panicMsg "Credit line not found") ∧
    update_risk_parameters emptyState 0 1 2 3 = .ok (emptyState, []) :=
  ⟨(C5_notfound_behavior.1 emptyState 0 5 rfl (by decide)).1,
   (C5_notfound_behavior.2.1 emptyState 0 rfl).1,
   C5_notfound_behavior.2.2.1 emptyState 0 1 2 3⟩

set_option maxRecDepth 4000 in
/-- C6: after `open_credit_line(0, 1000, 300, 70)` and
`suspend_credit_line(0)`, a draw of 100 fails with `CreditLineNotFound`
(code 1), not `InvalidCreditStatus` (code 2), and a repay of 100 also fails
with `CreditLineNotFound` instead of succeeding: the lifecycle operations
store under the bare borrower key while `draw_credit`/`repay_credit` read
the composite key.  On a record that does sit under the composite key with
status `Suspended`, the status logic behaves as the claim intends: draw
fails `InvalidCreditStatus` and repay succeeds.  The repository's own tests
expect draws and repays to see opened records, so this is a code defect. -/
theorem C6_suspend_then_draw :
    draw_credit ([Op.openLine 0 1000 300 70, Op.suspend 0].foldl applyOp
        emptyState) 0 100 = .error (.err .CreditLineNotFound) ∧
    repay_credit ([Op.openLine 0 1000 300 70, Op.suspend 0].foldl applyOp
        emptyState) 0 100 = .error (.err .CreditLineNotFound) ∧
    draw_credit sSusp 0 100 = .error (.err .InvalidCreditStatus) ∧
    (∃ s' tr, repay_credit sSusp 0 100 = .ok (s', tr)) ∧
    CreditError.code .CreditLineNotFound = 1 ∧
    CreditError.code .InvalidCreditStatus = 2 :=
  ⟨by rfl, by rfl, by rfl, ⟨_, _, by rfl⟩, rfl, rfl⟩

/-- C7: for an existing `Active` record under the composite key satisfying
the data-model invariant `0 ≤ utilized_amount ≤ credit_limit` (with the
limit representable in `i128`) and a positive amount, `draw_credit` fails
with `InsufficientUtilization` (the numeric code 4 the spec calls
`LimitExceeded`) exactly when the amount exceeds
`credit_limit - utilized_amount`; a draw within the headroom succeeds and
persists `utilized_amount + amount`; and after drawing exactly the headroom,
a further draw of 1 fails with the same error.  An abort commits no write,
so a failing draw leaves the record unchanged. -/
theorem C7_draw_limit_iff (s : State) (b : Address) (a : Int)
    (cd : CreditLineData) (hcd : s (StorageKey.credit b) = some cd)
    (hst : cd.status = CreditStatus.Active) (ha : 0 < a)
    (hu0 : 0 ≤ cd.utilized_amount) (hul : cd.utilized_amount ≤ cd.credit_limit)
    (hlm : cd.credit_limit ≤ I128_MAX) :
    ((draw_credit s b a = .error (.err .InsufficientUtilization)) ↔
      cd.credit_limit - cd.utilized_amount < a) ∧
    (a ≤ cd.credit_limit - cd.utilized_amount →
      draw_credit s b a = .ok
        (setKey s (StorageKey.credit b)
          { cd with utilized_amount := cd.utilized_amount + a },
         [Effect.write (StorageKey.credit b)
            { cd with utilized_amount := cd.utilized_amount + a },
          Effect.publish (EmittedEvent.draw b a (cd.utilized_amount + a))])) ∧
    (∀ s' tr, draw_credit s b (cd.credit_limit - cd.utilized_amount) =
        .ok (s', tr) →
      draw_credit s' b 1 = .error (.err .InsufficientUtilization)) := by
  have hminneg := I128_MIN_neg
  have hmaxpos := I128_MAX_pos
  have hsub : checked_sub cd.credit_limit cd.utilized_amount =
      some (cd.credit_limit - cd.utilized_amount) :=
    checked_sub_eq _ _ (by omega) (by omega)
  refine ⟨⟨?_, ?_⟩, ?_, ?_⟩
  · intro herr
    by_contra hle
    push_neg at hle
    have hadd : checked_add cd.utilized_amount a =
        some (cd.utilized_amount + a) :=
      checked_add_eq _ _ (by omega) (by omega)
    rw [draw_credit_eval_ok s b a cd _ _ hcd (by omega) hst hsub (by omega)
      hadd] at herr
    cases herr
  · intro hlt
    exact draw_credit_eval_exceeded s b a cd _ hcd (by omega) hst hsub
      (by omega)
  · intro hle
    have hadd : checked_add cd.utilized_amount a =
        some (cd.utilized_amount + a) :=
      checked_add_eq _ _ (by omega) (by omega)
    exact draw_credit_eval_ok s b a cd _ _ hcd (by omega) hst hsub (by omega)
      hadd
  · intro s' tr hok
    obtain ⟨cd2, hcd2, hst2, hpos2, -, -, -, hs', -⟩ :=
      draw_credit_ok s b _ s' tr hok
    rw [hcd] at hcd2
    injection hcd2 with heq
    subst heq
    have hrec : s' (StorageKey.credit b) =
        some { cd with utilized_amount :=
          cd.utilized_amount + (cd.credit_limit - cd.utilized_amount) } := by
      rw [hs']
      exact setKey_same _ _ _
    have e1 : cd.credit_limit -
        (cd.utilized_amount + (cd.credit_limit - cd.utilized_amount)) = 0 := by
      ring
    have hsubB : checked_sub cd.credit_limit
        (cd.utilized_amount + (cd.credit_limit - cd.utilized_amount)) =
        some 0 := by
      rw [checked_sub_eq _ _ (by omega) (by omega), e1]
    exact draw_credit_eval_exceeded s' b 1 _ 0 hrec (by omega) hst2 hsubB
      (by omega)

set_option maxRecDepth 4000 in
/-- C7 witness: the boundary behaviour at a concrete open line of limit
1000 with nothing drawn. -/
theorem C7_draw_limit_iff_witness :
    ((draw_credit sDraw 0 500 = .error (.err .InsufficientUtilization)) ↔
      cdActive.credit_limit - cdActive.utilized_amount < 500) ∧
    (500 ≤ cdActive.credit_limit - cdActive.utilized_amount →
      draw_credit sDraw 0 500 = .ok
        (setKey sDraw (StorageKey.credit 0)
          { cdActive with utilized_amount := cdActive.utilized_amount + 500 },
         [Effect.write (StorageKey.credit 0)
            { cdActive with utilized_amount := cdActive.utilized_amount + 500 },
          Effect.publish
            (EmittedEvent.draw 0 500 (cdActive.utilized_amount + 500))])) ∧
    (∀ s' tr, draw_credit sDraw 0
          (cdActive.credit_limit - cdActive.utilized_amount) = .ok (s', tr) →
      draw_credit s' 0 1 = .error (.err .InsufficientUtilization)) :=
  C7_draw_limit_iff sDraw 0 500 cdActive (by decide) rfl (by decide)
    (by decide) (by decide) (by decide)

set_option maxRecDepth 4000 in
/-- C8: on an existing `Active` or `Suspended` record, a repayment strictly
larger than the current utilization succeeds and persists
`utilized_amount = 0`, applying only the current utilization and discarding
the excess; and after any successful `repay_credit` the stored utilization
is never negative. -/
theorem C8_repay_overpay (s : State) (b : Address) (a : Int)
    (cd : CreditLineData) (hcd : s (StorageKey.credit b) = some cd)
    (hst : cd.status = CreditStatus.Active ∨ cd.status = CreditStatus.Suspended)
    (hover : cd.utilized_amount < a) (ha : 0 < a) :
    repay_credit s b a =
      .ok (setKey s (StorageKey.credit b) { cd with utilized_amount := 0 },
        [Effect.write (StorageKey.credit b) { cd with utilized_amount := 0 },
         Effect.publish (EmittedEvent.repayment b cd.utilized_amount 0)]) ∧
    (∀ (s2 : State) (b2 : Address) (a2 : Int) (s2' : State)
        (tr2 : List Effect), repay_credit s2 b2 a2 = .ok (s2', tr2) →
      ∀ cd', s2' (StorageKey.credit b2) = some cd' →
        0 ≤ cd'.utilized_amount) := by
  have hminneg := I128_MIN_neg
  have hmaxpos := I128_MAX_pos
  constructor
  · have hap : cd.utilized_amount =
        if a > cd.utilized_amount then cd.utilized_amount else a := by
      rw [if_pos hover]
    have hsub : checked_sub cd.utilized_amount cd.utilized_amount = some 0 := by
      rw [checked_sub_eq _ _ (by omega) (by omega)]
      norm_num
    exact repay_credit_eval_ok s b a cd cd.utilized_amount 0 hcd (by omega)
      hst hap hsub
  · intro s2 b2 a2 s2' tr2 hok cd' hcd'
    obtain ⟨cd2, -, -, hpos, hs', -⟩ := repay_credit_ok s2 b2 a2 s2' tr2 hok
    rw [hs', setKey_same] at hcd'
    injection hcd' with hcd'
    rw [← hcd']
    dsimp only
    split <;> omega

set_option maxRecDepth 4000 in
/-- C8 witness: repaying 500 against a utilization of 300 caps at 0. -/
theorem C8_repay_overpay_witness :
    repay_credit sRepay 0 500 =
      .ok (setKey sRepay (StorageKey.credit 0)
          { cdU300 with utilized_amount := 0 },
        [Effect.write (StorageKey.credit 0) { cdU300 with utilized_amount := 0 },
         Effect.publish (EmittedEvent.repayment 0 cdU300.utilized_amount 0)]) ∧
    (∀ (s2 : State) (b2 : Address) (a2 : Int) (s2' : State)
        (tr2 : List Effect), repay_credit s2 b2 a2 = .ok (s2', tr2) →
      ∀ cd', s2' (StorageKey.credit b2) = some cd' →
        0 ≤ cd'.utilized_amount) :=
  C8_repay_overpay sRepay 0 500 cdU300 (by decide) (Or.inl rfl) (by decide)
    (by decide)

/-- C9: if a draw of `a` succeeds on a record whose pre-draw utilization is
non-negative, then an immediately following repay of the same `a` succeeds
and restores the record exactly (in particular `utilized_amount` returns to
its pre-draw value). -/
theorem C9_repay_inverts_draw (s : State) (b : Address) (a : Int)
    (s' : State) (tr : List Effect) (cd : CreditLineData)
    (hcd : s (StorageKey.credit b) = some cd) (hu : 0 ≤ cd.utilized_amount)
    (hdraw : draw_credit s b a = .ok (s', tr)) :
    ∃ s'' tr', repay_credit s' b a = .ok (s'', tr') ∧
      s'' (StorageKey.credit b) = some cd := by
  have hminneg := I128_MIN_neg
  obtain ⟨cd2, hcd2, hst, hpos, hle, hr1, hr2, hs', -⟩ :=
    draw_credit_ok s b a s' tr hdraw
  rw [hcd] at hcd2
  injection hcd2 with heq
  subst heq
  have hrec : s' (StorageKey.credit b) =
      some { cd with utilized_amount := cd.utilized_amount + a } := by
    rw [hs']
    exact setKey_same _ _ _
  have hap : a =
      if a > cd.utilized_amount + a then cd.utilized_amount + a else a := by
    rw [if_neg (by omega)]
  have hsub : checked_sub (cd.utilized_amount + a) a =
      some cd.utilized_amount := by
    rw [checked_sub_eq _ _ (by omega) (by omega)]
    congr 1
    ring
  have heval := repay_credit_eval_ok s' b a
    { cd with utilized_amount := cd.utilized_amount + a } a
    cd.utilized_amount hrec (by omega) (Or.inl hst) hap hsub
  refine ⟨_, _, heval, ?_⟩
  rw [setKey_same]

set_option maxRecDepth 4000 in
/-- C9 witness: draw 100 then repay 100 on a fresh limit-1000 line restores
the record. -/
theorem C9_repay_inverts_draw_witness :
    ∃ s'' tr', repay_credit (setKey sDraw (StorageKey.credit 0)
        { cdActive with utilized_amount := 100 }) 0 100 = .ok (s'', tr') ∧
      s'' (StorageKey.credit 0) = some cdActive :=
  C9_repay_inverts_draw sDraw 0 100 _ _ cdActive (by rfl) (by decide) (by rfl)

/-- C10: `draw_credit` and `repay_credit` touch storage only under the
composite `("CREDIT_LINE", borrower)` key, while `open_credit_line` and
`get_credit_line` use the bare borrower key.  Consequently a successful draw
or repay never changes what `get_credit_line` returns (for any borrower),
and the record created by `open_credit_line` is never found by `draw_credit`
or `repay_credit`, which fail with `CreditLineNotFound`. -/
theorem C10_key_split :
    (∀ (s : State) (b : Address) (a : Int) (s' : State) (tr : List Effect),
        draw_credit s b a = .ok (s', tr) →
        ∀ b2, get_credit_line s' b2 = get_credit_line s b2) ∧
    (∀ (s : State) (b : Address) (a : Int) (s' : State) (tr : List Effect),
        repay_credit s b a = .ok (s', tr) →
        ∀ b2, get_credit_line s' b2 = get_credit_line s b2) ∧
    (∀ (s : State) (b : Address) (l : Int) (rate risk : Nat) (s' : State)
        (tr : List Effect), s (StorageKey.credit b) = none →
        open_credit_line s b l rate risk = .ok (s', tr) →
        ∀ a : Int, 0 < a →
          draw_credit s' b a = .error (.err .CreditLineNotFound) ∧
          repay_credit s' b a = .error (.err .CreditLineNotFound)) := by
  refine ⟨?_, ?_, ?_⟩
  · intro s b a s' tr h b2
    obtain ⟨cd, -, -, -, -, -, -, hs', -⟩ := draw_credit_ok s b a s' tr h
    rw [hs']
    unfold get_credit_line
    exact setKey_other _ _ _ _ (by simp)
  · intro s b a s' tr h b2
    obtain ⟨cd, -, -, -, hs', -⟩ := repay_credit_ok s b a s' tr h
    rw [hs']
    unfold get_credit_line
    exact setKey_other _ _ _ _ (by simp)
  · intro s b l rate risk s' tr hnone hopen a ha
    have hs' := open_credit_line_ok s b l rate risk s' tr hopen
    have hcredit : s' (StorageKey.credit b) = none := by
      rw [hs', setKey_other _ _ _ _ (by simp), hnone]
    exact ⟨draw_credit_notfound s' b a hcredit ha,
      repay_credit_notfound s' b a hcredit ha⟩

set_option maxRecDepth 4000 in
/-- C10 witness: a concrete draw leaves `get_credit_line` unchanged, and a
draw right after a concrete open fails `CreditLineNotFound`. -/
theorem C10_key_split_witness :
    get_credit_line (setKey sDraw (StorageKey.credit 0)
        { cdActive with utilized_amount := 100 }) 0 = get_credit_line sDraw 0 ∧
    draw_credit (setKey emptyState (StorageKey.addr 0)
        { borrower := 0, credit_limit := 1000, utilized_amount := 0,
          interest_rate_bps := 300, risk_score := 70,
          status := CreditStatus.Active }) 0 5 =
      .error (.err .CreditLineNotFound) :=
  ⟨C10_key_split.1 sDraw 0 100 _ _ (by rfl) 0,
   (C10_key_split.2.2 emptyState 0 1000 300 70 _ _ rfl (by rfl) 5
     (by decide)).1⟩
